/-
Verification of the judex-mini scraper against its specification.

The Python sources under `src/` are shallowly embedded below.  DOM access
through Selenium/BeautifulSoup is modelled by a `Page` structure whose fields
hold the text fragments the accessors would return: a field of type
`Option String` is `none` exactly when the corresponding element lookup would
raise (absent element / timed-out wait), and holds the accessor's string
otherwise.  Exceptions are modelled with `Except String`; functions that the
source makes total by catching exceptions are total here.  Timestamps
(`datetime.now`) are threaded as an explicit `now : String` argument.
-/
import Mathlib

namespace JudexMini

/-
Text primitives.  The Lean core `String` functions (`splitOn`, `trim`,
`toUpper`, `replace`, ...) are defined by position-based well-founded
recursion and do not reduce inside the kernel, so the Python string
operations are embedded here as structurally recursive functions on
character lists instead, with the same semantics.
-/

/-- Splits a character list into its maximal whitespace-free words
(the accumulator holds the current word reversed). -/
def words_go : List Char → List Char → List (List Char)
  | [], acc => if acc = [] then [] else [acc.reverse]
  | c :: cs, acc =>
    if c.isWhitespace then
      if acc = [] then words_go cs [] else acc.reverse :: words_go cs []
    else words_go cs (c :: acc)

/-- Joins words with single spaces. -/
def intercalate_space : List (List Char) → List Char
  | [] => []
  | [w] => w
  | w :: ws => w ++ ' ' :: intercalate_space ws

/-- Embeds `normalize_spaces` from `src/src/text_utils.py`:
`re.sub(r"\s+", " ", text).strip()`, i.e. the whitespace-separated words
joined by single spaces. -/
def normalize_spaces (s : String) : String :=
  String.mk (intercalate_space (words_go s.data []))

/-- Scanning core of the substring test. -/
def substr_go (pat : List Char) : List Char → Bool
  | [] => pat.isPrefixOf []
  | c :: cs => pat.isPrefixOf (c :: cs) || substr_go pat cs

/-- Python's substring containment test `pat in s` for a nonempty pattern. -/
def substrIn (pat s : String) : Bool :=
  substr_go pat.data s.data

/-- Python's `str.strip()`: whitespace removed from both ends. -/
def strTrim (s : String) : String :=
  String.mk (((s.data.dropWhile Char.isWhitespace).reverse.dropWhile
    Char.isWhitespace).reverse)

/-- Python's `str.upper()` (ASCII). -/
def strUpper (s : String) : String :=
  String.mk (s.data.map Char.toUpper)

/-- Python's `str.lower()` (ASCII). -/
def strLower (s : String) : String :=
  String.mk (s.data.map Char.toLower)

/-- Python's `str.startswith`. -/
def starts_with (s pat : String) : Bool :=
  pat.data.isPrefixOf s.data

/-- Drops the first `n` characters. -/
def str_drop (s : String) (n : Nat) : String :=
  String.mk (s.data.drop n)

/-- Python's `int(...)` on a string of ASCII digits. -/
def digitsToNat (cs : List Char) : Nat :=
  cs.foldl (fun acc c => acc * 10 + (c.toNat - 48)) 0

/-- Python's `str.isdigit` restricted to ASCII digits: nonempty and all digits. -/
def isdigitStr (s : String) : Bool :=
  s != "" && s.data.all Char.isDigit

/-- Fuelled core of substring split (the fuel only bounds the recursion;
`string_split_on` passes the input length, which always suffices since each
step consumes at least one character). -/
def split_on_fuel (pat : List Char) : Nat → List Char → List Char → List (List Char)
  | _, [], acc => [acc.reverse]
  | 0, s, acc => [acc.reverse ++ s]
  | fuel + 1, c :: cs, acc =>
    if pat.isPrefixOf (c :: cs) then
      acc.reverse :: split_on_fuel pat fuel (cs.drop (pat.length - 1)) []
    else split_on_fuel pat fuel cs (c :: acc)

/-- Python's `str.split(pat)` for a nonempty separator. -/
def string_split_on (s pat : String) : List String :=
  (split_on_fuel pat.data s.data.length s.data []).map String.mk

/-- Fuelled core of substring replacement, same fuel discipline. -/
def replace_fuel (pat rep : List Char) : Nat → List Char → List Char
  | _, [] => []
  | 0, s => s
  | fuel + 1, c :: cs =>
    if pat.isPrefixOf (c :: cs) then
      rep ++ replace_fuel pat rep fuel (cs.drop (pat.length - 1))
    else c :: replace_fuel pat rep fuel cs

/-- Python's `str.replace(pat, rep)` for a nonempty pattern: every
leftmost non-overlapping occurrence replaced. -/
def string_replace (s pat rep : String) : String :=
  String.mk (replace_fuel pat.data rep.data s.data.length s.data)

/-- `text.split(":", 1)[1]`: everything after the first colon. -/
def after_colon_chars : List Char → List Char
  | [] => []
  | c :: cs => if c == ':' then cs else after_colon_chars cs

/-- String-level wrapper of the after-first-colon split. -/
def after_first_colon (text : String) : String :=
  String.mk (after_colon_chars text.data)

/-- Case-insensitive (ASCII) prefix test, for `re.IGNORECASE` literals. -/
def caseless_prefix : List Char → List Char → Bool
  | [], _ => true
  | _ :: _, [] => false
  | p :: ps, c :: cs => (p.toLower == c.toLower) && caseless_prefix ps cs

/-! ### DOM model -/

/-- One party entry produced by `_extract_partes_from_soup`
(`src/src/extraction/extract_partes.py`). -/
structure Party where
  index : Nat
  tipo : String
  nome : String
deriving DecidableEq, Repr

/-- An `.processo-quadro` info box: texts of its `.rotulo` and `.numero`
children (`none` = child absent). -/
structure Box where
  rotulo : Option String
  numero : Option String
deriving DecidableEq, Repr

/-- Python's `int | str` result of `_extract_value_from_box`. -/
inductive NumVal where
  | num (n : Nat)
  | str (s : String)
deriving DecidableEq, Repr

/-- An `<a>` element inside an andamento item: its `href` attribute
(`none` when `get_attribute` returns `None`) and its visible text. -/
structure AnchorEl where
  href : Option String
  text : String
deriving DecidableEq, Repr

/-- One `.andamento-item` DOM node, by the texts of the sub-elements
`extract_andamentos` reads; `none` = sub-element absent (lookup raises). -/
structure AndamentoItem where
  data : Option String
  nome : Option String
  complemento : Option String
  julgador : Option String
  anchors : List AnchorEl
deriving DecidableEq, Repr

/-- One entry of the extracted andamentos list. -/
structure Andamento where
  index_num : Nat
  data : String
  nome : String
  complemento : Option String
  julgador : Option String
  link_descricao : Option String
  link : Option String
deriving DecidableEq, Repr

/-- One entry of the extracted deslocamentos list. -/
structure Deslocamento where
  index_num : Nat
  guia : Option String
  recebido_por : Option String
  data_recebido : Option String
  enviado_por : Option String
  data_enviado : Option String
deriving DecidableEq, Repr

/-- One entry of the extracted peticoes list. -/
structure Peticao where
  index : Nat
  id : Option String
  data : Option String
  recebido_data : Option String
  recebido_por : Option String
deriving DecidableEq, Repr

/-- One entry of the extracted recursos list. -/
structure Recurso where
  index : Nat
  data : Option String
deriving DecidableEq, Repr

/-- A rendered case page, by the results of every DOM accessor the code uses.
`none` means the element is absent, so the corresponding Selenium lookup
raises (`NoSuchElementException` / wait timeout). -/
structure Page where
  pageSource : String := ""
  conteudo : Option String := none
  descricaoProcedencia : Option String := none
  origemText : Option String := none
  incidenteValue : Option String := none
  processoRotulo : Option String := none
  processoDados : List String := []
  badgeTexts : List String := []
  assuntosLis : Option (List String) := none
  dataProtocolo : Option String := none
  orgaoOrigem : Option String := none
  numeroOrigemText : Option String := none
  informacoes : Option (List Box) := none
  resumoPartes : Option (List String) := none
  andamentoItems : Option (List AndamentoItem) := none
  deslocamentoItems : Option (List (Option String)) := none
  peticaoItems : Option (List String) := none
  recursoItems : Option (List String) := none

/-! ### Element access and the document loader (`src/src/utils/driver.py`,
`src/utils/get_element.py`) -/

/-- `find_element_by_xpath`: waits for the element, then reads `innerHTML`;
an absent element means the wait times out and the call raises. -/
def find_element_by_xpath (el : Option String) : Except String String :=
  match el with
  | none => Except.error "TimeoutException"
  | some v => Except.ok v

/-- `_check_for_errors` from `src/src/utils/driver.py` lines 42-55: every
failure signature raises a plain `Exception` with the shown message. -/
def check_for_errors (p : Page) (document : String) : Except String Unit :=
  if substrIn "403 Forbidden" p.pageSource then
    Except.error "403 Forbidden - Access denied"
  else if substrIn "CAPTCHA" p.pageSource then
    Except.error "CAPTCHA detected"
  else if substrIn "502 Bad Gateway" p.pageSource then
    Except.error "502 Bad Gateway"
  else if substrIn "Processo não encontrado" document then
    Except.error "Processo não encontrado"
  else
    match find_element_by_xpath p.descricaoProcedencia with
    | Except.error e => Except.error e
    | Except.ok d =>
      if d = "" then Except.error "descricao-procedencia não encontrado"
      else Except.ok ()

/-- The body of `_retry_operation` in `load_page_with_retry`: fetch the
content container, run the error checks, return the document. -/
def load_attempt (p : Page) : Except String String :=
  match find_element_by_xpath p.conteudo with
  | Except.error e => Except.error e
  | Except.ok document =>
    match check_for_errors p document with
    | Except.error e => Except.error e
    | Except.ok _ => Except.ok document

/-- The retry-relevant fields of `ScraperConfig` (`src/src/config.py`),
with their source defaults. -/
structure ScraperConfig where
  driver_max_retries : Nat := 5
  driver_backoff_multiplier : Nat := 1
  driver_backoff_min : Nat := 0
  driver_backoff_max : Nat := 10
  driver_max_retries_for_missing : Nat := 5

/-- tenacity's `wait_exponential`: the sleep after failed attempt number
`attempt` is `multiplier * 2 ^ attempt` clamped into `[min, max]`. -/
def wait_exponential (multiplier mn mx attempt : Nat) : Nat :=
  max mn (min (multiplier * 2 ^ attempt) mx)

/-- tenacity's retry loop with `stop_after_attempt`, `reraise=True` and
`retry_if_exception_type((Exception,))`: `att i` is the outcome of the
`i`-th attempt (1-based), `fuel` the number of retries still allowed.
Returns (final outcome, number of attempts made, backoff sleeps taken). -/
def load_retry_go (att : Nat → Except String String) (m mn mx : Nat) :
    Nat → Nat → Except String String × Nat × List Nat
  | i, 0 => (att i, 1, [])
  | i, fuel + 1 =>
    match att i with
    | Except.ok d => (Except.ok d, 1, [])
    | Except.error _ =>
      let w := wait_exponential m mn mx i
      let r := load_retry_go att m mn mx (i + 1) fuel
      (r.1, r.2.1 + 1, w :: r.2.2)

/-- `load_page_with_retry` (`src/src/utils/driver.py` lines 58-88): at most
`driver_max_retries` attempts, exponential backoff between them, every
`Exception` retried, last error reraised on exhaustion. -/
def load_page_with_retry (att : Nat → Except String String)
    (config : ScraperConfig) : Except String String × Nat × List Nat :=
  load_retry_go att config.driver_backoff_multiplier config.driver_backoff_min
    config.driver_backoff_max 1 (config.driver_max_retries - 1)

/-! ### Field extractors (`src/src/extraction/`) -/

/-- The `@track_extraction_timing` decorator (`src/src/extraction/base.py`
lines 13-29): times the call, logs, and on failure re-raises the exception
unchanged -- it never maps a failure to a default value. -/
def track_extraction_timing {α β : Type} (f : α → Except String β) :
    α → Except String β :=
  fun a =>
    match f a with
    | Except.ok result => Except.ok result
    | Except.error e => Except.error e

/-- `extract_incidente`: hidden input's `value`; absent element or
non-digit value are caught and mapped to `None`. -/
def extract_incidente (p : Page) : Option Nat :=
  match p.incidenteValue with
  | none => none
  | some value =>
    if value != "" && isdigitStr value then some (digitsToNat value.data)
    else none

/-- `extract_numero_unico`: text of `.processo-rotulo`, split after the
`Número Único:` marker, with `Sem número único` normalized to `None`. -/
def extract_numero_unico (p : Page) : Option String :=
  match p.processoRotulo with
  | none => none
  | some text =>
    if substrIn "Número Único:" text then
      let value := strTrim (((string_split_on text "Número Único:").get? 1).getD "")
      if value = "" || starts_with (strLower value) "sem número único" then none
      else some value
    else none

/-- The loop of `extract_meio`: first badge containing `Físico` or
`Eletrônico` wins. -/
def meio_go : List String → Option String
  | [] => none
  | badge :: rest =>
    if substrIn "Físico" badge then some "FISICO"
    else if substrIn "Eletrônico" badge then some "ELETRONICO"
    else meio_go rest

/-- `extract_meio` over the page's `.badge` texts. -/
def extract_meio (p : Page) : Option String :=
  meio_go p.badgeTexts

/-- `extract_publicidade`: upper-cased badges scanned for the sealed marker,
then for the public markers (including the mojibake variant in the source). -/
def extract_publicidade (p : Page) : Option String :=
  let badges := p.badgeTexts.map strUpper
  if badges.any (fun b => substrIn "SIGILOSO" b) then some "SIGILOSO"
  else if badges.any (fun b => substrIn "PÃšBLICO" b || substrIn "PUBLICO" b) then
    some "PUBLICO"
  else none

/-- `_is_valid_badge_text` from `extract_badges.py`. -/
def is_valid_badge_text (text : String) : Bool :=
  if text = "" then false
  else
    let upper := strUpper text
    substrIn "MAIOR DE 60 ANOS" upper || substrIn "DOENÇA GRAVE" upper ||
      substrIn "DOENCA GRAVE" upper

/-- `extract_badges`: keep the badge texts matching the valid patterns. -/
def extract_badges (p : Page) : List String :=
  p.badgeTexts.filter is_valid_badge_text

/-- The `li` loop of `_extract_assuntos_from_soup`. -/
def assuntos_from_lis : List String → List String
  | [] => []
  | li :: rest =>
    if li != "" then
      let cleaned := normalize_spaces li
      if cleaned != "" then cleaned :: assuntos_from_lis rest
      else assuntos_from_lis rest
    else assuntos_from_lis rest

/-- `extract_assuntos`: an absent subjects container is caught and mapped
to the empty list. -/
def extract_assuntos (p : Page) : List String :=
  match p.assuntosLis with
  | none => []
  | some lis => assuntos_from_lis lis

/-- `extract_data_protocolo`: bare `find_element_by_xpath` with NO handler,
so an absent element propagates the exception. -/
def extract_data_protocolo (p : Page) : Except String (Option String) :=
  match find_element_by_xpath p.dataProtocolo with
  | Except.error e => Except.error e
  | Except.ok element =>
    Except.ok (if element != "" then some (normalize_spaces element) else none)

/-- `extract_orgao_origem`: same unguarded shape as `extract_data_protocolo`. -/
def extract_orgao_origem (p : Page) : Except String (Option String) :=
  match find_element_by_xpath p.orgaoOrigem with
  | Except.error e => Except.error e
  | Except.ok element =>
    Except.ok (if element != "" then some (normalize_spaces element) else none)

/-- `extract_origem`: guarded by try/except, absent element maps to `None`. -/
def extract_origem (p : Page) : Option String :=
  match p.origemText with
  | none => none
  | some t => some (normalize_spaces t)

/-- Character class of the `Número de Origem` pattern: digit, dot, slash
or dash. -/
def isNumOrigemChar (c : Char) : Bool :=
  c.isDigit || c == '.' || c == '/' || c == '-'

/-- The `Número de Origem` regex search of `extract_numero_origem`:
leftmost occurrence of the literal (ASCII-caseless, for `re.IGNORECASE`)
followed by optional whitespace and at least one character of the
digit-dot-slash-dash class; returns the captured group. -/
def num_origem_search : List Char → Option String
  | [] => none
  | c :: cs =>
    if caseless_prefix ("Número de Origem:".data) (c :: cs) then
      let after := ((c :: cs).drop ("Número de Origem:".data.length)).dropWhile
        Char.isWhitespace
      let cap := after.takeWhile isNumOrigemChar
      if cap != [] then some (String.mk cap) else num_origem_search cs
    else num_origem_search cs

/-- `extract_numero_origem`: regex capture over the info div's text; digit
captures become a one-element integer list, others a one-element raw list. -/
def extract_numero_origem (p : Page) : Option (List NumVal) :=
  match p.numeroOrigemText with
  | none => none
  | some text =>
    match num_origem_search text.data with
    | none => none
    | some raw =>
      let raw := strTrim raw
      if isdigitStr raw then some [NumVal.num (digitsToNat raw.data)]
      else some [NumVal.str raw]

/-- The pairing loop of `_extract_partes_from_soup`
(`src/src/extraction/extract_partes.py` lines 22-43), with the running
`len(partes) + 1` index carried as `k`; pairs with an empty role or name
text are skipped. -/
def partes_from (k : Nat) : List (String × String) → List Party
  | [] => []
  | (t, n) :: rest =>
    let tipo := normalize_spaces t
    let nome := normalize_spaces n
    if tipo = "" ∨ nome = "" then partes_from k rest
    else { index := k, tipo := tipo, nome := nome } :: partes_from (k + 1) rest

/-- `for i in range(0, len, 2)` with the `i + 1 >= len` break: consecutive
pairs, a trailing unpaired element dropped. -/
def partes_pairs : List String → List (String × String)
  | t :: n :: rest => (t, n) :: partes_pairs rest
  | _ => []

/-- `_extract_partes_from_soup` over the ordered `div.processo-partes` texts. -/
def extract_partes_from_soup (elementos : List String) : List Party :=
  partes_from 1 (partes_pairs elementos)

/-- `extract_partes`: an absent `resumo-partes` container is caught and
mapped to the empty list. -/
def extract_partes (p : Page) : List Party :=
  match p.resumoPartes with
  | none => []
  | some elementos => extract_partes_from_soup elementos

/-- The role-code loop of `extract_primeiro_autor`. -/
def first_author : List Party → Option String
  | [] => none
  | parte :: rest =>
    if starts_with parte.tipo "RECTE" || starts_with parte.tipo "REQTE" ||
        starts_with parte.tipo "AUTOR" then some parte.nome
    else first_author rest

/-- `extract_primeiro_autor`: first party whose role starts with a
plaintiff-like code. -/
def extract_primeiro_autor (p : Page) : Option String :=
  let partes := extract_partes p
  if partes = [] then none else first_author partes

/-- The loop of `extract_relator` over `.processo-dados` texts. -/
def relator_go : List String → Option String
  | [] => none
  | text :: rest =>
    if starts_with text "Relator(a):" then
      let relator := normalize_spaces (after_first_colon text)
      let relator :=
        if starts_with relator "MIN. " then str_drop relator 5 else relator
      if relator = "" then none else some relator
    else relator_go rest

/-- `extract_relator`: first data row starting with `Relator(a):`, with the
`MIN. ` honorific stripped and the empty string normalized to `None`. -/
def extract_relator (p : Page) : Option String :=
  relator_go p.processoDados

/-- `_extract_value_from_box` (`extract_volumes_folhas_apensos.py` lines
20-31): a missing `.numero` child or a blank text gives `None`, a digit
string gives the integer, and ANY OTHER text is returned verbatim. -/
def extract_value_from_box (box : Box) : Option NumVal :=
  match box.numero with
  | none => none
  | some value =>
    if isdigitStr value then some (NumVal.num (digitsToNat value.data))
    else if value = "" ∨ strTrim value = "" then none
    else some (NumVal.str value)

/-- The box-scanning loop shared by `extract_volumes`, `extract_folhas` and
`extract_apensos`: the first box whose upper-cased `.rotulo` text contains
the label substring wins; boxes without a `.rotulo` child are skipped. -/
def find_counter_box (lbl : String) : List Box → Option NumVal
  | [] => none
  | b :: bs =>
    match b.rotulo with
    | none => find_counter_box lbl bs
    | some r =>
      if substrIn lbl (strUpper r) then extract_value_from_box b
      else find_counter_box lbl bs

/-- `_get_info_boxes`: fetches the `informacoes` container (raising on
absence) and selects its `.processo-quadro` boxes. -/
def get_info_boxes (p : Page) : Except String (List Box) :=
  match p.informacoes with
  | none => Except.error "TimeoutException"
  | some bs => Except.ok bs

/-- `extract_volumes`: no internal handler, so a missing info container
propagates the exception from `_get_info_boxes`. -/
def extract_volumes (p : Page) : Except String (Option NumVal) :=
  match get_info_boxes p with
  | Except.error e => Except.error e
  | Except.ok boxes => Except.ok (find_counter_box "VOLUME" boxes)

/-- `extract_folhas`, same shape with the `FOLHA` label. -/
def extract_folhas (p : Page) : Except String (Option NumVal) :=
  match get_info_boxes p with
  | Except.error e => Except.error e
  | Except.ok boxes => Except.ok (find_counter_box "FOLHA" boxes)

/-- `extract_apensos`, same shape with the `APENSO` label. -/
def extract_apensos (p : Page) : Except String (Option NumVal) :=
  match get_info_boxes p with
  | Except.error e => Except.error e
  | Except.ok boxes => Except.ok (find_counter_box "APENSO" boxes)

/-! ### Andamentos (`src/src/extraction/extract_andamentos.py`) -/

/-- Tail test for the trailing-`GUIA` regex of `extract_andamentos`
(`",\s*GUIA\s*N[ÂºOo0]?[^,]*$"`, case-insensitive), applied to the
characters after a candidate comma: optional whitespace, caseless `GUIA`,
optional whitespace, `N`, then no further comma up to the end (the optional
ordinal character is subsumed by the no-comma condition). -/
def guia_tail_matches (cs : List Char) : Bool :=
  let cs1 := cs.dropWhile Char.isWhitespace
  if caseless_prefix ("GUIA".data) cs1 then
    match (cs1.drop 4).dropWhile Char.isWhitespace with
    | [] => false
    | n :: rest => (n == 'N' || n == 'n') && !(rest.contains ',')
  else false

/-- `re.sub` of the trailing-`GUIA` pattern with the empty replacement:
delete from the leftmost matching comma to the end of the string. -/
def strip_guia_chars : List Char → List Char
  | [] => []
  | c :: cs =>
    if c == ',' && guia_tail_matches cs then []
    else c :: strip_guia_chars cs

/-- The `nome` cleanup of `extract_andamentos`: normalize whitespace, then
(when nonempty) strip a trailing `, GUIA N...` artifact and re-strip. -/
def clean_nome (raw : String) : String :=
  let nome := normalize_spaces raw
  if nome != "" then strTrim (String.mk (strip_guia_chars nome.data)) else nome

/-- The link fields derived from the first `<a>` of an andamento item:
relative hrefs are resolved against the portal base with `amp;` artifacts
removed, and the anchor text is normalized and upper-cased when nonempty. -/
def anchor_fields : List AnchorEl → Option String × Option String
  | [] => (none, none)
  | a :: _ =>
    let link :=
      match a.href with
      | none => none
      | some href =>
        if href != "" then
          if starts_with href "http" then some href
          else some ("https://portal.stf.jus.br/processos/" ++
            string_replace href "amp;" "")
        else none
    let link_descricao :=
      if a.text != "" then
        let ld := normalize_spaces a.text
        some (if ld != "" then strUpper ld else ld)
      else none
    (link, link_descricao)

/-- The per-item body of `extract_andamentos` (lines 25-89): a missing
date, name or complement sub-element raises inside the item's try block and
the item is skipped (`none`); otherwise the indexed entry is built. -/
def parse_andamento (index : Nat) (it : AndamentoItem) : Option Andamento :=
  match it.data, it.nome, it.complemento with
  | some data, some nome_raw, some complemento_raw =>
    let nome := clean_nome nome_raw
    let complemento0 := normalize_spaces complemento_raw
    let complemento := if complemento0 = "" then none else some complemento0
    let lk := anchor_fields it.anchors
    some { index_num := index, data := data, nome := strUpper nome,
           complemento := complemento, julgador := it.julgador,
           link_descricao := lk.2, link := lk.1 }
  | _, _, _ => none

/-- `for i, andamento in enumerate(andamentos)` with
`index = len(andamentos) - i`; failed items are skipped. -/
def andamentos_loop (total : Nat) : List AndamentoItem → Nat → List Andamento
  | [], _ => []
  | it :: rest, i =>
    match parse_andamento (total - i) it with
    | some a => a :: andamentos_loop total rest (i + 1)
    | none => andamentos_loop total rest (i + 1)

/-- `extract_andamentos`: an absent container is caught and mapped to the
empty list. -/
def extract_andamentos (p : Page) : List Andamento :=
  match p.andamentoItems with
  | none => []
  | some items => andamentos_loop items.length items 0

/-! ### Deslocamentos (`src/src/extraction/extract_deslocamentos.py`) -/

/-- `re.search` of a literal followed by a `([^<]+)` capture: leftmost
position where the literal matches and at least one non-`<` character
follows; the capture extends to the next `<` or the end. -/
def re_capture_go (pat : List Char) : List Char → Option String
  | [] => none
  | c :: cs =>
    if pat.isPrefixOf (c :: cs) then
      let cap := ((c :: cs).drop pat.length).takeWhile (fun ch => ch != '<')
      if cap != [] then some (String.mk cap) else re_capture_go pat cs
    else re_capture_go pat cs

/-- String-level wrapper for the literal-plus-capture search. -/
def re_search_capture (pat s : String) : Option String :=
  re_capture_go pat.data s.data

/-- The `guia_match` pattern: literal `text-right">`, optional whitespace,
literal `<span class="processo-detalhes">`, then a `([^<]+)` capture. -/
def guia_pat_go : List Char → Option String
  | [] => none
  | c :: cs =>
    if ("text-right\">".data).isPrefixOf (c :: cs) then
      let after := ((c :: cs).drop ("text-right\">".data.length)).dropWhile
        Char.isWhitespace
      if ("<span class=\"processo-detalhes\">".data).isPrefixOf after then
        let cap := (after.drop
          ("<span class=\"processo-detalhes\">".data.length)).takeWhile
          (fun ch => ch != '<')
        if cap != [] then some (String.mk cap) else guia_pat_go cs
      else guia_pat_go cs
    else guia_pat_go cs

/-- The five regex matches of `_extract_data_from_html` (note which
patterns carry a leading double quote in the source). -/
structure DesMatches where
  enviado_match : Option String
  data_recebido_match : Option String
  recebido_match : Option String
  data_enviado_match : Option String
  guia_match : Option String

/-- `_extract_data_from_html`. -/
def extract_data_from_html (html : String) : DesMatches where
  enviado_match := re_search_capture "\"processo-detalhes-bold\">" html
  data_recebido_match := re_search_capture "processo-detalhes bg-font-success\">" html
  recebido_match := re_search_capture "\"processo-detalhes\">" html
  data_enviado_match := re_search_capture "processo-detalhes bg-font-info\">" html
  guia_match := guia_pat_go html.data

/-- The `data_recebido` cleanup of `_clean_data_fields`. -/
def clean_recebido_field (s : String) : String :=
  strTrim (string_replace
    (string_replace (normalize_spaces s) "Recebido em " "") " em " "")

/-- The `data_enviado` cleanup of `_clean_data_fields`. -/
def clean_enviado_field (s : String) : String :=
  strTrim (string_replace
    (string_replace (normalize_spaces s) "Enviado em " "") " em " "")

/-- The `guia` cleanup of `_clean_data_fields`. -/
def clean_guia_field (s : String) : String :=
  strTrim (string_replace (string_replace
    (string_replace (normalize_spaces s) "Guia: " "") "Guia " "") "Nº " "")

/-- Shape test for the date regex `\d{2}/\d{2}/\d{4}` at the head of a
character list (further characters may follow, as in `re.search`). -/
def date_shape : List Char → Bool
  | d1 :: d2 :: s1 :: d3 :: d4 :: s2 :: d5 :: d6 :: d7 :: d8 :: _ =>
    d1.isDigit && d2.isDigit && s1 == '/' && d3.isDigit && d4.isDigit &&
      s2 == '/' && d5.isDigit && d6.isDigit && d7.isDigit && d8.isDigit
  | _ => false

/-- `re.search(r"em (\d{2}" ... `)`: leftmost `em ` followed by a
dd/dd/dddd-shaped date; returns the captured date. -/
def date_search_go : List Char → Option String
  | [] => none
  | c :: cs =>
    if ("em ".data).isPrefixOf (c :: cs) then
      let after := (c :: cs).drop 3
      if date_shape after then some (String.mk (after.take 10))
      else date_search_go cs
    else date_search_go cs

/-- String-level wrapper for the embedded-date search. -/
def search_em_date (s : String) : Option String :=
  date_search_go s.data

/-- `re.sub(r" em \d{2}" ... `$", "", s)`: drop a trailing ` em ` plus
date when the string ends with exactly that 14-character suffix. -/
def strip_em_date_suffix (s : String) : String :=
  let n := s.data.length
  if n ≥ 14 then
    let tailPart := s.data.drop (n - 14)
    if (" em ".data).isPrefixOf tailPart && date_shape (tailPart.drop 4) then
      String.mk (s.data.take (n - 14))
    else s
  else s

/-- One side of `_extract_person_data`: normalize, backfill the date field
from an embedded `em DD/MM/YYYY` when it is still absent, then strip the
boilerplate head and the date suffix. -/
def person_side (raw : Option String) (boiler : String)
    (dataVal : Option String) : Option String × Option String :=
  match raw with
  | none => (none, dataVal)
  | some r =>
    let cleaned := normalize_spaces r
    let dataVal :=
      match search_em_date cleaned, dataVal with
      | some d, none => some d
      | _, dv => dv
    let cleaned :=
      if starts_with cleaned boiler then str_drop cleaned boiler.data.length
      else cleaned
    (some (strip_em_date_suffix cleaned), dataVal)

/-- `_extract_single_deslocamento` (lines 174-205): a `None` innerHTML makes
the regex calls raise inside the try block, skipping the item; otherwise the
matches are cleaned and assembled.  The source swaps the raw person fields:
`enviado_raw` comes from `recebido_match` and vice versa. -/
def parse_deslocamento (html? : Option String) (index : Nat) :
    Option Deslocamento :=
  match html? with
  | none => none
  | some html =>
    let m := extract_data_from_html html
    let data_recebido := m.data_recebido_match.map clean_recebido_field
    let data_enviado := m.data_enviado_match.map clean_enviado_field
    let guia := m.guia_match.map clean_guia_field
    let ep := person_side m.recebido_match "Enviado por " data_enviado
    let rp := person_side m.enviado_match "Recebido por " data_recebido
    some { index_num := index, guia := guia, recebido_por := rp.1,
           data_recebido := rp.2, enviado_por := ep.1, data_enviado := ep.2 }

/-- The loop of `extract_deslocamentos` (lines 208-231):
`index = total - i`, failed items skipped. -/
def deslocamentos_loop (total : Nat) : List (Option String) → Nat → List Deslocamento
  | [], _ => []
  | h :: rest, i =>
    match parse_deslocamento h (total - i) with
    | some d => d :: deslocamentos_loop total rest (i + 1)
    | none => deslocamentos_loop total rest (i + 1)

/-- `extract_deslocamentos`: an absent container is caught and mapped to
the empty list. -/
def extract_deslocamentos (p : Page) : List Deslocamento :=
  match p.deslocamentoItems with
  | none => []
  | some items => deslocamentos_loop items.length items 0

/-! ### Peticoes and recursos (`extract_peticoes.py`, `extract_recursos.py`) -/

/-- `re.sub(r"^Peticionado em\s+", "", s)`: drop the head literal plus at
least one whitespace character. -/
def strip_peticionado (s : String) : String :=
  if starts_with s "Peticionado em" then
    let rest := s.data.drop ("Peticionado em".data.length)
    if rest.takeWhile Char.isWhitespace != [] then
      String.mk (rest.dropWhile Char.isWhitespace)
    else s
  else s

/-- The per-item body of `extract_peticoes` (no leading quotes in these
patterns, unlike the deslocamento ones; the first `data_match` assignment
is immediately overwritten in the source, so only the `processo-detalhes">`
pattern feeds `data`). -/
def parse_peticao (html : String) (index : Nat) : Peticao :=
  let id_match := re_search_capture "processo-detalhes-bold\">" html
  let data_match := re_search_capture "processo-detalhes\">" html
  let recebido_match := re_search_capture "Recebido em " html
  let data := data_match.map
    (fun d => normalize_spaces (strip_peticionado (normalize_spaces d)))
  let idVal := id_match.map normalize_spaces
  let recebido := recebido_match.map normalize_spaces
  let rd :=
    match recebido with
    | none => (none, none)
    | some r =>
      match string_split_on r " por " with
      | [a, b] => (some (strTrim a), some (strTrim b))
      | _ => (some r, none)
  { index := index, id := idVal, data := data, recebido_data := rd.1,
    recebido_por := rd.2 }

/-- The loop of `extract_peticoes`: `index = total - i`, every item kept. -/
def peticoes_loop (total : Nat) : List String → Nat → List Peticao
  | [], _ => []
  | h :: rest, i => parse_peticao h (total - i) :: peticoes_loop total rest (i + 1)

/-- `extract_peticoes`: bare `driver.find_element` with NO handler, so an
absent container propagates the exception. -/
def extract_peticoes (p : Page) : Except String (List Peticao) :=
  match p.peticaoItems with
  | none => Except.error "NoSuchElementException"
  | some items => Except.ok (peticoes_loop items.length items 0)

/-- The per-item body of `extract_recursos`. -/
def parse_recurso (html : String) (index : Nat) : Recurso :=
  { index := index,
    data := (re_search_capture "processo-detalhes-bold\">" html).map
      normalize_spaces }

/-- The loop of `extract_recursos`. -/
def recursos_loop (total : Nat) : List String → Nat → List Recurso
  | [], _ => []
  | h :: rest, i => parse_recurso h (total - i) :: recursos_loop total rest (i + 1)

/-- `extract_recursos`: guarded by try/except, an absent container maps to
the empty list. -/
def extract_recursos (p : Page) : List Recurso :=
  match p.recursoItems with
  | none => []
  | some items => recursos_loop items.length items 0

/-! ### Record assembly (`src/src/scraper.py` lines 153-189) -/

/-- The record assembled by `extract_processo`, one field per dict key. -/
structure StfItem where
  incidente : Option Nat
  classe : String
  processo_id : Nat
  numero_unico : Option String
  meio : Option String
  publicidade : Option String
  badges : List String
  assuntos : List String
  data_protocolo : Option String
  orgao_origem : Option String
  origem : Option String
  numero_origem : Option (List NumVal)
  volumes : Option NumVal
  folhas : Option NumVal
  apensos : Option NumVal
  relator : Option String
  primeiro_autor : Option String
  partes : List Party
  andamentos : List Andamento
  sessao_virtual : List String
  deslocamentos : List Deslocamento
  peticoes : List Peticao
  recursos : List Recurso
  pautas : List String
  status : Nat
  extraido : String
  html : String
deriving DecidableEq, Repr

/-- `extract_processo`: calls every extractor on the same page and builds
the record, with `status = 200`, `extraido = now` and the normalized page
source.  The fallible extractors are forced in dict order (Python evaluates
the dict values left to right), so the first failure propagates, matching
the absence of any handler around assembly. -/
def extract_processo (p : Page) (classe : String) (processo : Nat)
    (now : String) : Except String StfItem :=
  match extract_data_protocolo p with
  | Except.error e => Except.error e
  | Except.ok data_protocolo =>
  match extract_orgao_origem p with
  | Except.error e => Except.error e
  | Except.ok orgao_origem =>
  match extract_volumes p with
  | Except.error e => Except.error e
  | Except.ok volumes =>
  match extract_folhas p with
  | Except.error e => Except.error e
  | Except.ok folhas =>
  match extract_apensos p with
  | Except.error e => Except.error e
  | Except.ok apensos =>
  match extract_peticoes p with
  | Except.error e => Except.error e
  | Except.ok peticoes =>
    Except.ok
      { incidente := extract_incidente p
        classe := classe
        processo_id := processo
        numero_unico := extract_numero_unico p
        meio := extract_meio p
        publicidade := extract_publicidade p
        badges := extract_badges p
        assuntos := extract_assuntos p
        data_protocolo := data_protocolo
        orgao_origem := orgao_origem
        origem := extract_origem p
        numero_origem := extract_numero_origem p
        volumes := volumes
        folhas := folhas
        apensos := apensos
        relator := extract_relator p
        primeiro_autor := extract_primeiro_autor p
        partes := extract_partes p
        andamentos := extract_andamentos p
        sessao_virtual := []
        deslocamentos := extract_deslocamentos p
        peticoes := peticoes
        recursos := extract_recursos p
        pautas := []
        status := 200
        extraido := now
        html := normalize_spaces p.pageSource }

/-! ### Orchestration (`src/src/scraper.py`, `src/src/utils/validation.py`) -/

/-- `process_single_process`: only the page load is wrapped in try/except
(a load failure is logged and mapped to `None`); an extraction failure
propagates to the caller. -/
def process_single_process (p : Page) (classe : String) (processo : Nat)
    (config : ScraperConfig) (now : String) : Except String (Option StfItem) :=
  match (load_page_with_retry (fun _ => load_attempt p) config).1 with
  | Except.error _ => Except.ok none
  | Except.ok _ =>
    match extract_processo p classe processo now with
    | Except.error e => Except.error e
    | Except.ok item => Except.ok (some item)

/-- `process_batch`: iterates the given IDs in order with no handler around
the loop body, so a propagated extraction failure aborts the batch. -/
def process_batch (pages : Nat → Page) (classe : String)
    (config : ScraperConfig) (now : String) :
    List Nat → Except String (List (Nat × Option StfItem))
  | [] => Except.ok []
  | processo :: rest =>
    match process_single_process (pages processo) classe processo config now with
    | Except.error e => Except.error e
    | Except.ok item =>
      match process_batch pages classe config now rest with
      | Except.error e => Except.error e
      | Except.ok tail => Except.ok ((processo, item) :: tail)

/-- The fixed taxonomy `STF_CASE_TYPES` (`src/src/utils/validation.py`). -/
def STF_CASE_TYPES : List String :=
  ["AC", "ACO", "ADC", "ADI", "ADO", "ADPF", "AI", "AImp", "AO", "AOE",
   "AP", "AR", "ARE", "AS", "CC", "Cm", "EI", "EL", "EP", "Ext", "HC",
   "HD", "IF", "Inq", "MI", "MS", "PADM", "Pet", "PPE", "PSV", "RC",
   "Rcl", "RE", "RHC", "RHD", "RMI", "RMS", "RvC", "SE", "SIRDR", "SL",
   "SS", "STA", "STP", "TPA"]

/-- `validate_stf_case_type`: raises `ValueError` exactly when the code is
outside the taxonomy. -/
def validate_stf_case_type (case_type : String) : Except String Unit :=
  if case_type ∈ STF_CASE_TYPES then Except.ok ()
  else Except.error ("Invalid STF case type: " ++ case_type)

/-- Modelled from the spec: the CLI entry point that wires
`validate_stf_case_type` in front of the scraping run is not among the
sources (nothing under `src/` calls `validate_stf_case_type` or
`run_scraper`); per the spec, "an invalid case-class code ... fails fast
before any network activity", so the modelled run validates first and only
then processes the initial batch `range(processo_inicial, processo_final+1)`
as `run_scraper` does. -/
def run_judex (classe : String) (processo_inicial processo_final : Nat)
    (pages : Nat → Page) (config : ScraperConfig) (now : String) :
    Except String (List (Nat × Option StfItem)) :=
  match validate_stf_case_type classe with
  | Except.error e => Except.error e
  | Except.ok _ =>
    process_batch pages classe config now
      (List.range' processo_inicial (processo_final + 1 - processo_inicial))

/-! ### Gap repair (`src/src/scraper.py` lines 192-302) -/

/-- The persisted output as `check_missing_processes` sees it: whether an
output file of the enabled format exists, whether reading it succeeds, and
the set of `processo_id` values it reports (the source stringifies them). -/
structure PersistedOutput where
  fileExists : Bool
  readOk : Bool
  ids : Finset String

/-- The `expected_numbers` set: stringified IDs of `[inicial, final]`. -/
def expected_ids (processo_inicial processo_final : Nat) : Finset String :=
  (Finset.Icc processo_inicial processo_final).image (fun i => toString i)

/-- `check_missing_processes`: no output file or a read error yields the
empty list; otherwise `expected_numbers - processed_numbers` (the source
returns the set difference as a list in unspecified order; the model keeps
the set). -/
def check_missing_processes (processo_inicial processo_final : Nat)
    (out : PersistedOutput) : Finset String :=
  if !out.fileExists then ∅
  else if !out.readOk then ∅
  else expected_ids processo_inicial processo_final \ out.ids

/-- The loop of `retry_missing_processes`: for each round up to the fuel,
read back the gap set; stop when it is empty, otherwise sweep it.  Returns
the list of gap sets actually swept, in order. -/
def retry_missing_loop (check : Nat → Finset String) :
    Nat → Nat → List (Finset String)
  | _, 0 => []
  | round, fuel + 1 =>
    let missing := check round
    if missing = ∅ then []
    else missing :: retry_missing_loop check (round + 1) fuel

/-- `retry_missing_processes` (lines 192-228): at most
`driver_max_retries_for_missing` repair rounds; `outputs k` is the
persisted output as read at the start of round `k`. -/
def retry_missing_processes (processo_inicial processo_final : Nat)
    (outputs : Nat → PersistedOutput) (config : ScraperConfig) :
    List (Finset String) :=
  retry_missing_loop
    (fun k => check_missing_processes processo_inicial processo_final (outputs k))
    0 config.driver_max_retries_for_missing

/-! ### Verification fixtures -/

/-- A record with its `extraido` timestamp blanked, for comparing records
up to the extraction timestamp. -/
def erase_extraido (it : StfItem) : StfItem :=
  { it with extraido := "" }

/-- A fixture page whose content container carries the record-not-found
marker and whose other loader anchors are present. -/
def not_found_page : Page :=
  { pageSource := "", conteudo := some "Processo não encontrado",
    descricaoProcedencia := some "TRIBUNAL DE ORIGEM" }

/-- A fixture page whose source carries the bot-challenge marker. -/
def captcha_page : Page :=
  { pageSource := "CAPTCHA", conteudo := some "conteudo",
    descricaoProcedencia := some "TRIBUNAL DE ORIGEM" }

/-- A fixture page that loads successfully but lacks the protocol-date
element, so the unguarded `extract_data_protocolo` raises during assembly. -/
def c5_bad_page : Page :=
  { pageSource := "", conteudo := some "conteudo",
    descricaoProcedencia := some "TRIBUNAL DE ORIGEM", dataProtocolo := none }

/-- An andamento item with every required sub-element present. -/
def fixture_item (d nm : String) : AndamentoItem :=
  { data := some d, nome := some nm, complemento := some "Complemento",
    julgador := none, anchors := [] }

/-- Three rendered andamento items whose middle item lacks its name
sub-element, so its extraction raises and the item is skipped. -/
def fixture_items : List AndamentoItem :=
  [fixture_item "01/01/2020" "DISTRIBUIDO",
   { data := some "02/01/2020", nome := none, complemento := some "Complemento",
     julgador := none, anchors := [] },
   fixture_item "03/01/2020" "BAIXA"]

/-- Three fully well-formed rendered andamento items (newest first). -/
def fixture_good_items : List AndamentoItem :=
  [fixture_item "03/03/2020" "CONCLUSOS", fixture_item "02/02/2020" "JUNTADA",
   fixture_item "01/01/2020" "DISTRIBUIDO"]

/-- A fixture page on which every fallible extractor succeeds, so record
assembly completes. -/
def good_page : Page :=
  { pageSource := "", conteudo := some "conteudo",
    descricaoProcedencia := some "TRIBUNAL DE ORIGEM",
    dataProtocolo := some "01/01/2020", orgaoOrigem := some "STJ",
    informacoes := some [], peticaoItems := some [] }

/-- The record assembled from `good_page` at timestamp `t1`. -/
def c9_record : StfItem :=
  { incidente := none, classe := "RE", processo_id := 1, numero_unico := none,
    meio := none, publicidade := none, badges := [], assuntos := [],
    data_protocolo := some "01/01/2020", orgao_origem := some "STJ",
    origem := none, numero_origem := none, volumes := none, folhas := none,
    apensos := none, relator := none, primeiro_autor := none, partes := [],
    andamentos := [], sessao_virtual := [], deslocamentos := [],
    peticoes := [], recursos := [], pautas := [], status := 200,
    extraido := "t1", html := "" }

/-! ### Theorems -/

/-- The indices produced by the pairing loop are consecutive from the
starting counter. -/
theorem partes_from_map_index (l : List (String × String)) :
    ∀ k, (partes_from k l).map Party.index =
      List.range' k (partes_from k l).length := by
  induction l with
  | nil => intro k; rfl
  | cons hd tl ih =>
    intro k
    obtain ⟨t, n⟩ := hd
    by_cases h : normalize_spaces t = "" ∨ normalize_spaces n = ""
    · simp only [partes_from, if_pos h]
      exact ih k
    · simp only [partes_from, if_neg h, List.map_cons, List.length_cons,
        List.range'_succ]
      exact congrArg (k :: ·) (ih (k + 1))

/-- Appending one element to an even-length node list leaves the pairs
unchanged: the trailing element is truncated. -/
theorem partes_pairs_append :
    ∀ (els : List String) (x : String), els.length % 2 = 0 →
      partes_pairs (els ++ [x]) = partes_pairs els
  | [], _, _ => rfl
  | [_], _, h => by simp at h
  | a :: b :: rest, x, h => by
    have hr : rest.length % 2 = 0 := by
      simp only [List.length_cons] at h
      omega
    show (a, b) :: partes_pairs (rest ++ [x]) = (a, b) :: partes_pairs rest
    exact congrArg _ (partes_pairs_append rest x hr)

/-- Claim C6: `extract_partes` pairs the alternating role and name nodes
positionally into Party entries with contiguous 1-based indices, truncates
a trailing unpaired node, and on the container
`[role="RECTE", name="João"], [role="RECDO", name="Maria"]` yields exactly
the two indexed parties of the spec's concrete scenario. -/
theorem C6_partes_pairing :
    (∀ els : List String, (extract_partes_from_soup els).map Party.index =
      List.range' 1 (extract_partes_from_soup els).length) ∧
    (∀ (els : List String) (x : String), els.length % 2 = 0 →
      extract_partes_from_soup (els ++ [x]) = extract_partes_from_soup els) ∧
    extract_partes { resumoPartes := some ["RECTE", "João", "RECDO", "Maria"] } =
      [{ index := 1, tipo := "RECTE", nome := "João" },
       { index := 2, tipo := "RECDO", nome := "Maria" }] := by
  refine ⟨fun els => partes_from_map_index (partes_pairs els) 1, ?_, ?_⟩
  · intro els x h
    unfold extract_partes_from_soup
    rw [partes_pairs_append els x h]
  · rfl

/-- Witness for claim C6's truncation clause at a concrete odd container. -/
theorem C6_partes_pairing_witness :
    (["RECTE", "João"] : List String).length % 2 = 0 ∧
    extract_partes_from_soup (["RECTE", "João"] ++ ["REQDO"]) =
      extract_partes_from_soup ["RECTE", "João"] :=
  ⟨by decide, C6_partes_pairing.2.1 ["RECTE", "João"] "REQDO" (by decide)⟩

/-- Claim C7 counterexample: a volumes box whose display text is the
non-blank non-digit string `N/A` is returned as the raw string, not
normalized to the absent value. -/
theorem C7_raw_string_counterexample :
    extract_volumes
      { informacoes := some [{ rotulo := some "Volumes", numero := some "N/A" }] } =
      Except.ok (some (NumVal.str "N/A")) ∧
    (some (NumVal.str "N/A") : Option NumVal) ≠ none := by
  exact ⟨rfl, by decide⟩

/-- Claim C7 as amended: the three counter extractors locate the value by
the label substring over the info boxes; a digit display value is returned
as an integer and a blank one as the absent value, but a non-blank
non-digit display value is returned as the raw string. -/
theorem C7_numeric_counters :
    (∀ (p : Page) (bs : List Box), p.informacoes = some bs →
      extract_volumes p = Except.ok (find_counter_box "VOLUME" bs) ∧
      extract_folhas p = Except.ok (find_counter_box "FOLHA" bs) ∧
      extract_apensos p = Except.ok (find_counter_box "APENSO" bs)) ∧
    (∀ (lbl r v : String) (bs : List Box), substrIn lbl (strUpper r) = true →
      isdigitStr v = true →
      find_counter_box lbl ({ rotulo := some r, numero := some v } :: bs) =
        some (NumVal.num (digitsToNat v.data))) ∧
    (∀ (lbl r : String) (bs : List Box), substrIn lbl (strUpper r) = true →
      find_counter_box lbl ({ rotulo := some r, numero := some "" } :: bs) =
        none) ∧
    (∀ (lbl r v : String) (bs : List Box), substrIn lbl (strUpper r) = true →
      isdigitStr v = false → ¬(v = "" ∨ strTrim v = "") →
      find_counter_box lbl ({ rotulo := some r, numero := some v } :: bs) =
        some (NumVal.str v)) := by
  refine ⟨?_, ?_, ?_, ?_⟩
  · intro p bs h
    refine ⟨?_, ?_, ?_⟩ <;>
      simp only [extract_volumes, extract_folhas, extract_apensos,
        get_info_boxes, h]
  · intro lbl r v bs hl hd
    simp only [find_counter_box, hl, if_true, extract_value_from_box, hd]
  · intro lbl r bs hl
    simp only [find_counter_box, hl, if_true]
    rfl
  · intro lbl r v bs hl hd hv
    simp only [find_counter_box, hl, if_true, extract_value_from_box, hd,
      Bool.false_eq_true, if_false, if_neg hv]

/-- Witness for claim C7's amended clauses at concrete boxes. -/
theorem C7_numeric_counters_witness :
    (substrIn "VOLUME" (strUpper "Volumes") = true ∧
      isdigitStr "12" = true ∧
      find_counter_box "VOLUME" [{ rotulo := some "Volumes", numero := some "12" }] =
        some (NumVal.num 12)) ∧
    find_counter_box "FOLHA" [{ rotulo := some "Folhas", numero := some "" }] =
      none :=
  by
  refine ⟨⟨by decide, by decide, ?_⟩, ?_⟩
  · exact C7_numeric_counters.2.1 "VOLUME" "Volumes" "12" [] (by decide)
      (by decide)
  · exact C7_numeric_counters.2.2.1 "FOLHA" "Folhas" [] (by decide)

/-- Claim C2 counterexample: `extract_volumes` fed a document lacking its
target element (no `informacoes` container) raises instead of returning the
absent sentinel. -/
theorem C2_extractor_raises_counterexample :
    extract_volumes { informacoes := none } = Except.error "TimeoutException" ∧
    (Except.error "TimeoutException" : Except String (Option NumVal)) ≠
      Except.ok none :=
  ⟨rfl, fun h => Except.noConfusion h⟩

/-- Claim C2 as amended: extractors with internal handlers map an absent
target element to their documented default (`extract_partes` and
`extract_andamentos` to the empty list, `extract_origem` to `None`), but
the timing decorator re-raises failures unchanged, and the unguarded
extractors (`extract_volumes`, `extract_peticoes`) propagate the exception,
so not every extractor call is raise-free. -/
theorem C2_failure_handling :
    (∀ (α β : Type) (f : α → Except String β) (a : α),
      track_extraction_timing f a = f a) ∧
    (∀ p : Page, p.resumoPartes = none → extract_partes p = []) ∧
    (∀ p : Page, p.andamentoItems = none → extract_andamentos p = []) ∧
    (∀ p : Page, p.origemText = none → extract_origem p = none) ∧
    (∀ p : Page, p.informacoes = none →
      extract_volumes p = Except.error "TimeoutException") ∧
    (∀ p : Page, p.peticaoItems = none →
      extract_peticoes p = Except.error "NoSuchElementException") := by
  refine ⟨?_, ?_, ?_, ?_, ?_, ?_⟩
  · intro α β f a
    unfold track_extraction_timing
    cases f a <;> rfl
  · intro p h; simp [extract_partes, h]
  · intro p h; simp [extract_andamentos, h]
  · intro p h; simp [extract_origem, h]
  · intro p h; simp [extract_volumes, get_info_boxes, h]
  · intro p h; simp [extract_peticoes, h]

/-- Witness for claim C2's amended clauses on the empty page. -/
theorem C2_failure_handling_witness :
    track_extraction_timing extract_volumes ({} : Page) =
      extract_volumes ({} : Page) ∧
    extract_partes ({} : Page) = [] ∧
    extract_andamentos ({} : Page) = [] ∧
    extract_origem ({} : Page) = none ∧
    extract_volumes ({} : Page) = Except.error "TimeoutException" ∧
    extract_peticoes ({} : Page) = Except.error "NoSuchElementException" :=
  ⟨C2_failure_handling.1 Page (Option NumVal) extract_volumes {},
   C2_failure_handling.2.1 {} rfl,
   C2_failure_handling.2.2.1 {} rfl,
   C2_failure_handling.2.2.2.1 {} rfl,
   C2_failure_handling.2.2.2.2.1 {} rfl,
   C2_failure_handling.2.2.2.2.2 {} rfl⟩

/-- A well-formed item parses to an entry carrying the passed index. -/
theorem parse_andamento_map_index (idx : Nat) (it : AndamentoItem)
    (h1 : it.data.isSome) (h2 : it.nome.isSome) (h3 : it.complemento.isSome) :
    (parse_andamento idx it).map Andamento.index_num = some idx := by
  obtain ⟨d, hd⟩ := Option.isSome_iff_exists.mp h1
  obtain ⟨nm, hn⟩ := Option.isSome_iff_exists.mp h2
  obtain ⟨cm, hc⟩ := Option.isSome_iff_exists.mp h3
  simp [parse_andamento, hd, hn, hc]

/-- When every rendered item parses, the andamento loop assigns exactly the
descending indices `total - (i + j)`. -/
theorem andamentos_loop_map_index (total : Nat) :
    ∀ (items : List AndamentoItem) (i : Nat),
      (∀ it ∈ items, it.data.isSome ∧ it.nome.isSome ∧ it.complemento.isSome) →
      (andamentos_loop total items i).map Andamento.index_num =
        (List.range items.length).map (fun j => total - (i + j)) := by
  intro items
  induction items with
  | nil => intro i _; rfl
  | cons it rest ih =>
    intro i h
    obtain ⟨h1, h2, h3⟩ := h it (List.mem_cons_self it rest)
    have hmap := parse_andamento_map_index (total - i) it h1 h2 h3
    obtain ⟨a, ha, hidx⟩ : ∃ a, parse_andamento (total - i) it = some a ∧
        a.index_num = total - i := by
      cases hp : parse_andamento (total - i) it with
      | none => rw [hp] at hmap; simp at hmap
      | some a =>
        rw [hp] at hmap
        simp only [Option.map_some'] at hmap
        exact ⟨a, rfl, by injection hmap⟩
    have tail := ih (i + 1) (fun it' hm => h it' (List.mem_cons_of_mem it hm))
    simp only [andamentos_loop, ha, List.map_cons, hidx, tail,
      List.length_cons, List.range_succ_eq_map, List.map_map, Nat.add_zero]
    congr 1
    apply List.map_congr_left
    intro j _
    simp only [Function.comp_apply]
    omega

/-- An item whose innerHTML is present always parses, with the passed index. -/
theorem parse_deslocamento_map_index (h : String) (idx : Nat) :
    (parse_deslocamento (some h) idx).map Deslocamento.index_num = some idx := rfl

/-- When every rendered item has its innerHTML, the deslocamento loop
assigns exactly the descending indices. -/
theorem deslocamentos_loop_map_index (total : Nat) :
    ∀ (items : List (Option String)) (i : Nat),
      (∀ h ∈ items, h.isSome) →
      (deslocamentos_loop total items i).map Deslocamento.index_num =
        (List.range items.length).map (fun j => total - (i + j)) := by
  intro items
  induction items with
  | nil => intro i _; rfl
  | cons it rest ih =>
    intro i h
    obtain ⟨s, hs⟩ := Option.isSome_iff_exists.mp (h it (List.mem_cons_self it rest))
    have tail := ih (i + 1) (fun it' hm => h it' (List.mem_cons_of_mem it hm))
    subst hs
    simp only [deslocamentos_loop, parse_deslocamento, List.map_cons, tail,
      List.length_cons, List.range_succ_eq_map, List.map_map, Nat.add_zero]
    congr 1
    apply List.map_congr_left
    intro j _
    simp only [Function.comp_apply]
    omega

/-- Claim C3 counterexample: three rendered andamento items whose middle
item fails to parse yield an extracted list of length 2 whose `index_num`
values are `[3, 1]` -- not the set `{1, 2}` in descending order. -/
theorem C3_index_gap_counterexample :
    (extract_andamentos { andamentoItems := some fixture_items }).map
      Andamento.index_num = [3, 1] ∧
    (extract_andamentos { andamentoItems := some fixture_items }).length = 2 ∧
    (extract_andamentos { andamentoItems := some fixture_items }).map
      Andamento.index_num ≠ (List.range 2).map (fun j => 2 - j) := by
  refine ⟨rfl, rfl, by decide⟩

/-- Claim C3 as amended: `index_num` is assigned as the rendered item count
minus the item's position, so WHEN EVERY ITEM PARSES the extracted list has
the length of the rendered list and its `index_num` values are exactly
`[N, N-1, ..., 1]`; a failed item is skipped and leaves a gap instead.  The
3-item concrete scenario yields `[3, 2, 1]`. -/
theorem C3_index_descending :
    (∀ (items : List AndamentoItem),
      (∀ it ∈ items, it.data.isSome ∧ it.nome.isSome ∧ it.complemento.isSome) →
      ∀ p : Page, p.andamentoItems = some items →
        (extract_andamentos p).map Andamento.index_num =
          (List.range items.length).map (fun j => items.length - j) ∧
        (extract_andamentos p).length = items.length) ∧
    (∀ (items : List (Option String)),
      (∀ h ∈ items, h.isSome) →
      ∀ p : Page, p.deslocamentoItems = some items →
        (extract_deslocamentos p).map Deslocamento.index_num =
          (List.range items.length).map (fun j => items.length - j) ∧
        (extract_deslocamentos p).length = items.length) ∧
    (extract_andamentos { andamentoItems := some fixture_good_items }).map
      Andamento.index_num = [3, 2, 1] := by
  refine ⟨?_, ?_, by decide⟩
  · intro items hall p hp
    have hmap := andamentos_loop_map_index items.length items 0 hall
    simp only [Nat.zero_add] at hmap
    have hlen : (extract_andamentos p).length = items.length := by
      have := congrArg List.length hmap
      simpa [extract_andamentos, hp, List.length_map, List.length_range]
        using this
    exact ⟨by simpa [extract_andamentos, hp] using hmap, hlen⟩
  · intro items hall p hp
    have hmap := deslocamentos_loop_map_index items.length items 0 hall
    simp only [Nat.zero_add] at hmap
    have hlen : (extract_deslocamentos p).length = items.length := by
      have := congrArg List.length hmap
      simpa [extract_deslocamentos, hp, List.length_map, List.length_range]
        using this
    exact ⟨by simpa [extract_deslocamentos, hp] using hmap, hlen⟩

/-- Witness for claim C3's all-items-parse clause at the 3-item fixture. -/
theorem C3_index_descending_witness :
    (∀ it ∈ fixture_good_items,
      it.data.isSome ∧ it.nome.isSome ∧ it.complemento.isSome) ∧
    (extract_andamentos { andamentoItems := some fixture_good_items }).map
        Andamento.index_num =
      (List.range fixture_good_items.length).map
        (fun j => fixture_good_items.length - j) := by
  have h : ∀ it ∈ fixture_good_items,
      it.data.isSome ∧ it.nome.isSome ∧ it.complemento.isSome := by decide
  exact ⟨h, (C3_index_descending.1 fixture_good_items h
    { andamentoItems := some fixture_good_items } rfl).1⟩

/-- When every attempt fails, the retry loop uses every attempt, surfaces
the error of the last one, and sleeps the exponential backoff after each
failed attempt but the last. -/
theorem load_retry_go_all_fail (att : Nat → Except String String)
    (errs : Nat → String) (m mn mx : Nat)
    (h : ∀ j, att j = Except.error (errs j)) :
    ∀ (fuel i : Nat),
      load_retry_go att m mn mx i fuel =
        (Except.error (errs (i + fuel)), fuel + 1,
          (List.range' i fuel).map (wait_exponential m mn mx)) := by
  intro fuel
  induction fuel with
  | zero =>
    intro i
    simp [load_retry_go, h i]
  | succ n ih =>
    intro i
    simp only [load_retry_go, h i]
    rw [ih (i + 1)]
    have harith : i + 1 + n = i + (n + 1) := by omega
    simp [List.range'_succ, harith]

/-- The retry loop never exceeds its attempt budget. -/
theorem load_retry_go_attempts_le (att : Nat → Except String String)
    (m mn mx : Nat) :
    ∀ (fuel i : Nat), (load_retry_go att m mn mx i fuel).2.1 ≤ fuel + 1 := by
  intro fuel
  induction fuel with
  | zero => intro i; simp [load_retry_go]
  | succ n ih =>
    intro i
    cases hatt : att i with
    | ok d => simp [load_retry_go, hatt]
    | error e =>
      simp only [load_retry_go, hatt]
      have := ih (i + 1)
      omega

/-- A page whose load attempt fails is skipped: the single-process step
returns `None` instead of propagating. -/
theorem process_single_load_fail (p : Page) (e : String) (classe : String)
    (processo : Nat) (config : ScraperConfig) (now : String)
    (h : load_attempt p = Except.error e) :
    process_single_process p classe processo config now = Except.ok none := by
  unfold process_single_process load_page_with_retry
  rw [load_retry_go_all_fail (fun _ => load_attempt p) (fun _ => e) _ _ _
    (fun _ => h) (config.driver_max_retries - 1) 1]

/-- A batch over pages that all fail to load yields one `None` outcome per
ID and never aborts. -/
theorem process_batch_all_load_fail (pages : Nat → Page) (classe : String)
    (config : ScraperConfig) (now : String) :
    ∀ ids : List Nat,
      (∀ i ∈ ids, ∃ e, load_attempt (pages i) = Except.error e) →
      process_batch pages classe config now ids =
        Except.ok (ids.map (fun i => (i, none))) := by
  intro ids
  induction ids with
  | nil => intro _; rfl
  | cons i rest ih =>
    intro h
    obtain ⟨e, he⟩ := h i (List.mem_cons_self i rest)
    have tail := ih (fun i' hm => h i' (List.mem_cons_of_mem i hm))
    simp only [process_batch, process_single_load_fail (pages i) e classe i
      config now he, tail, List.map_cons]

/-- Claim C1 counterexample: a loader fed a fixture page containing the
record-not-found marker spends the whole default retry budget -- five
attempts, not one -- before surfacing the marker as an error. -/
theorem C1_not_found_retried_counterexample :
    (load_page_with_retry (fun _ => load_attempt not_found_page) {}).2.1 = 5 ∧
    (load_page_with_retry (fun _ => load_attempt not_found_page) {}).1 =
      Except.error "Processo não encontrado" ∧
    (5 : Nat) ≠ 1 :=
  ⟨rfl, rfl, by decide⟩

/-- Claim C1 as amended: `load_page_with_retry` retries EVERY failure
signature -- the retry predicate catches all exceptions, so the
record-not-found and empty-origin-description outcomes are retried exactly
like the transient access-denial/CAPTCHA/gateway/timeout signatures: any
page whose load attempt fails consumes the full configured retry ceiling
and then surfaces that error. -/
theorem C1_all_failures_retried (p : Page) (e : String)
    (config : ScraperConfig) (h1 : 1 ≤ config.driver_max_retries)
    (h2 : load_attempt p = Except.error e) :
    (load_page_with_retry (fun _ => load_attempt p) config).1 =
      Except.error e ∧
    (load_page_with_retry (fun _ => load_attempt p) config).2.1 =
      config.driver_max_retries := by
  unfold load_page_with_retry
  rw [load_retry_go_all_fail (fun _ => load_attempt p) (fun _ => e) _ _ _
    (fun _ => h2) (config.driver_max_retries - 1) 1]
  refine ⟨rfl, ?_⟩
  simp only
  omega

/-- Witness for claim C1's amended clause: a CAPTCHA fixture page at the
default configuration is attempted exactly five times. -/
theorem C1_all_failures_retried_witness :
    1 ≤ ({} : ScraperConfig).driver_max_retries ∧
    load_attempt captcha_page = Except.error "CAPTCHA detected" ∧
    (load_page_with_retry (fun _ => load_attempt captcha_page) {}).2.1 =
      ({} : ScraperConfig).driver_max_retries :=
  ⟨by decide, rfl,
    (C1_all_failures_retried captcha_page "CAPTCHA detected" {} (by decide)
      rfl).2⟩

/-- Claim C8: the loader makes at most `driver_max_retries` attempts; on
exhaustion it surfaces the last attempt's error after exactly the retry
ceiling; each backoff sleep is the exponential wait clamped into the
configured floor and ceiling; and the caller maps a load failure to a
skipped ID without aborting the batch over the remaining IDs. -/
theorem C8_retry_policy :
    (∀ (att : Nat → Except String String) (config : ScraperConfig),
      1 ≤ config.driver_max_retries →
      (load_page_with_retry att config).2.1 ≤ config.driver_max_retries) ∧
    (∀ (att : Nat → Except String String) (errs : Nat → String)
        (config : ScraperConfig),
      (∀ j, att j = Except.error (errs j)) →
      1 ≤ config.driver_max_retries →
      (load_page_with_retry att config).1 =
          Except.error (errs config.driver_max_retries) ∧
        (load_page_with_retry att config).2.1 = config.driver_max_retries ∧
        (load_page_with_retry att config).2.2 =
          (List.range' 1 (config.driver_max_retries - 1)).map
            (wait_exponential config.driver_backoff_multiplier
              config.driver_backoff_min config.driver_backoff_max)) ∧
    (∀ (m mn mx a : Nat), mn ≤ mx →
      mn ≤ wait_exponential m mn mx a ∧ wait_exponential m mn mx a ≤ mx) ∧
    (∀ (ids : List Nat) (pages : Nat → Page) (classe : String)
        (config : ScraperConfig) (now : String),
      (∀ i ∈ ids, ∃ e, load_attempt (pages i) = Except.error e) →
      process_batch pages classe config now ids =
        Except.ok (ids.map (fun i => (i, none)))) := by
  refine ⟨?_, ?_, ?_, ?_⟩
  · intro att config h
    have := load_retry_go_attempts_le att config.driver_backoff_multiplier
      config.driver_backoff_min config.driver_backoff_max
      (config.driver_max_retries - 1) 1
    unfold load_page_with_retry
    omega
  · intro att errs config hatt h
    unfold load_page_with_retry
    rw [load_retry_go_all_fail att errs _ _ _ hatt
      (config.driver_max_retries - 1) 1]
    have harith : 1 + (config.driver_max_retries - 1) =
        config.driver_max_retries := by omega
    refine ⟨by rw [harith], by simp only; omega, rfl⟩
  · intro m mn mx a h
    unfold wait_exponential
    constructor
    · exact le_max_left mn _
    · exact max_le h (min_le_right _ _)
  · exact fun ids pages classe config now h =>
      process_batch_all_load_fail pages classe config now ids h

/-- Witness for claim C8 at the default configuration: a constantly
failing attempt function is tried five times, surfaces the final error,
sleeps the clamped waits `[2, 4, 8, 10]`, and a two-ID batch over
unloadable pages completes with both IDs skipped. -/
theorem C8_retry_policy_witness :
    1 ≤ ({} : ScraperConfig).driver_max_retries ∧
    (load_page_with_retry (fun _ => Except.error "502 Bad Gateway") {}).2.1 ≤
      ({} : ScraperConfig).driver_max_retries ∧
    (load_page_with_retry (fun _ => Except.error "502 Bad Gateway") {}).1 =
      Except.error "502 Bad Gateway" ∧
    (load_page_with_retry (fun _ => Except.error "502 Bad Gateway") {}).2.2 =
      [2, 4, 8, 10] ∧
    ((0 : Nat) ≤ 10 ∧ 0 ≤ wait_exponential 1 0 10 3 ∧
      wait_exponential 1 0 10 3 ≤ 10) ∧
    process_batch (fun _ => ({} : Page)) "RE" {} "t" [1, 2] =
      Except.ok [(1, none), (2, none)] := by
  refine ⟨by decide, ?_, ?_, ?_, ⟨by decide, ?_⟩, ?_⟩
  · exact C8_retry_policy.1 (fun _ => Except.error "502 Bad Gateway") {}
      (by decide)
  · exact (C8_retry_policy.2.1 (fun _ => Except.error "502 Bad Gateway")
      (fun _ => "502 Bad Gateway") {} (fun _ => rfl) (by decide)).1
  · exact rfl
  · exact C8_retry_policy.2.2.1 1 0 10 3 (by decide)
  · exact C8_retry_policy.2.2.2 [1, 2] (fun _ => ({} : Page)) "RE" {} "t"
      (fun i _ => ⟨"TimeoutException", rfl⟩)

/-- Claim C4: the gap set is the expected ID range minus the persisted
`processo_id` values; the repair loop runs at most the configured number of
rounds; and in the spec's scenario -- persisted output reporting
`expected - 7 after sweep 1, then complete after the repair sweep -- the
loop performs exactly one repair sweep targeting exactly ID 7 and stops
without a third sweep. -/
theorem C4_gap_repair :
    (∀ (a b : Nat) (out : PersistedOutput),
      out.fileExists = true → out.readOk = true →
      check_missing_processes a b out = expected_ids a b \ out.ids) ∧
    (∀ (check : Nat → Finset String) (start fuel : Nat),
      (retry_missing_loop check start fuel).length ≤ fuel) ∧
    (∀ (a b : Nat) (outputs : Nat → PersistedOutput) (config : ScraperConfig),
      2 ≤ config.driver_max_retries_for_missing →
      (outputs 0).fileExists = true → (outputs 0).readOk = true →
      (outputs 0).ids = expected_ids a b \ {"7"} →
      ("7" : String) ∈ expected_ids a b →
      check_missing_processes a b (outputs 1) = ∅ →
      retry_missing_processes a b outputs config = [{"7"}]) := by
  refine ⟨?_, ?_, ?_⟩
  · intro a b out h1 h2
    simp [check_missing_processes, h1, h2]
  · intro check start fuel
    induction fuel generalizing start with
    | zero => simp [retry_missing_loop]
    | succ n ih =>
      by_cases h : check start = ∅
      · simp [retry_missing_loop, h]
      · simp only [retry_missing_loop, if_neg h, List.length_cons]
        have := ih (start + 1)
        omega
  · intro a b outputs config hm h1 h2 hids h7 hnext
    have hcheck0 : check_missing_processes a b (outputs 0) = {"7"} := by
      rw [check_missing_processes]
      simp only [h1, h2, hids, Bool.not_true, Bool.false_eq_true, if_false]
      rw [Finset.sdiff_sdiff_self_left, Finset.inter_singleton_of_mem h7]
    obtain ⟨f, hf⟩ : ∃ f, config.driver_max_retries_for_missing = f + 2 :=
      ⟨config.driver_max_retries_for_missing - 2, by omega⟩
    unfold retry_missing_processes
    rw [hf]
    show retry_missing_loop _ 0 (f + 1 + 1) = _
    rw [retry_missing_loop]
    simp only [hcheck0, if_neg (Finset.singleton_ne_empty ("7" : String))]
    rw [retry_missing_loop]
    simp [hnext]

/-- Witness for claim C4's scenario at the concrete range 5..9 with the
default configuration. -/
theorem C4_gap_repair_witness :
    2 ≤ ({} : ScraperConfig).driver_max_retries_for_missing ∧
    ("7" : String) ∈ expected_ids 5 9 ∧
    retry_missing_processes 5 9
      (fun k => if k = 0 then
          { fileExists := true, readOk := true, ids := expected_ids 5 9 \ {"7"} }
        else { fileExists := true, readOk := true, ids := expected_ids 5 9 })
      {} = [{"7"}] := by
  refine ⟨by decide, by decide, ?_⟩
  exact C4_gap_repair.2.2 5 9
    (fun k => if k = 0 then
        { fileExists := true, readOk := true, ids := expected_ids 5 9 \ {"7"} }
      else { fileExists := true, readOk := true, ids := expected_ids 5 9 })
    {} (by decide) rfl rfl rfl (by decide) (by decide)

/-- Claim C10: when no persisted output file exists (or reading it fails)
at every round, `check_missing_processes` reports no gap and the repair
loop performs no sweeps at all -- even though every expected ID may in fact
be missing from the output. -/
theorem C10_no_output_no_repair (a b : Nat) (outputs : Nat → PersistedOutput)
    (config : ScraperConfig)
    (h : ∀ k, (outputs k).fileExists = false ∨ (outputs k).readOk = false) :
    check_missing_processes a b (outputs 0) = ∅ ∧
    retry_missing_processes a b outputs config = [] := by
  have hcheck : ∀ k, check_missing_processes a b (outputs k) = ∅ := by
    intro k
    rcases h k with hk | hk <;> simp [check_missing_processes, hk]
  refine ⟨hcheck 0, ?_⟩
  unfold retry_missing_processes
  cases config.driver_max_retries_for_missing with
  | zero => rfl
  | succ n => simp [retry_missing_loop, hcheck 0]

/-- Witness for claim C10: a run whose output file never appears, with
every ID of 1..3 genuinely missing (`ids = ∅`), performs no repair sweep. -/
theorem C10_no_output_no_repair_witness :
    check_missing_processes 1 3
      { fileExists := false, readOk := true, ids := (∅ : Finset String) } = ∅ ∧
    retry_missing_processes 1 3
      (fun _ => { fileExists := false, readOk := true, ids := ∅ }) {} = [] :=
  C10_no_output_no_repair 1 3
    (fun _ => { fileExists := false, readOk := true, ids := ∅ }) {}
    (fun _ => Or.inl rfl)

/-- A batch whose every ID's single-process step succeeds (possibly with a
skip) completes the whole ID list in order. -/
theorem process_batch_complete (pages : Nat → Page) (classe : String)
    (config : ScraperConfig) (now : String) :
    ∀ ids : List Nat,
      (∀ i ∈ ids, ∃ r, process_single_process (pages i) classe i config now =
        Except.ok r) →
      ∃ l, process_batch pages classe config now ids = Except.ok l ∧
        l.map Prod.fst = ids := by
  intro ids
  induction ids with
  | nil => intro _; exact ⟨[], rfl, rfl⟩
  | cons i rest ih =>
    intro h
    obtain ⟨r, hr⟩ := h i (List.mem_cons_self i rest)
    obtain ⟨l, hl, hmap⟩ := ih (fun i' hm => h i' (List.mem_cons_of_mem i hm))
    refine ⟨(i, r) :: l, ?_, ?_⟩
    · simp only [process_batch, hr, hl]
    · simp [hmap]

/-- Claim C5 counterexample: a valid-code run over IDs 1..2 whose first
page loads but lacks the protocol-date element aborts with the propagated
extraction error instead of completing the full requested range. -/
theorem C5_extraction_abort_counterexample :
    run_judex "RE" 1 2 (fun _ => c5_bad_page) {} "2024-01-01T00:00:00" =
      Except.error "TimeoutException" ∧
    (run_judex "RE" 1 2 (fun _ => c5_bad_page) {} "2024-01-01T00:00:00").toOption
      = none :=
  ⟨rfl, rfl⟩

/-- Claim C5 as amended: a run with a case-class code outside the taxonomy
fails fast with the validation error, with a result independent of the page
environment (no network activity); a run with a valid code completes the
full requested ID range PROVIDED every ID's processing either succeeds or
fails only at page load (load failures are caught and skipped) -- an
extraction-stage failure instead aborts the run partway. -/
theorem C5_validation_and_completion :
    (∀ (classe : String) (a b : Nat) (pages pages' : Nat → Page)
        (config config' : ScraperConfig) (now now' : String),
      classe ∉ STF_CASE_TYPES →
      run_judex classe a b pages config now =
        Except.error ("Invalid STF case type: " ++ classe) ∧
      run_judex classe a b pages config now =
        run_judex classe a b pages' config' now') ∧
    (∀ (classe : String) (a b : Nat) (pages : Nat → Page)
        (config : ScraperConfig) (now : String),
      classe ∈ STF_CASE_TYPES →
      (∀ i ∈ List.range' a (b + 1 - a), ∃ r,
        process_single_process (pages i) classe i config now = Except.ok r) →
      ∃ l, run_judex classe a b pages config now = Except.ok l ∧
        l.map Prod.fst = List.range' a (b + 1 - a)) := by
  constructor
  · intro classe a b pages pages' config config' now now' h
    constructor <;>
      simp [run_judex, validate_stf_case_type, h]
  · intro classe a b pages config now h hall
    obtain ⟨l, hl, hmap⟩ :=
      process_batch_complete pages classe config now
        (List.range' a (b + 1 - a)) hall
    refine ⟨l, ?_, hmap⟩
    simp [run_judex, validate_stf_case_type, h, hl]

/-- Witness for claim C5's amended clauses: the unknown code `XYZ` fails
fast, and a valid `RE` run over 1..2 with unloadable pages (every load
caught and skipped) completes the full range. -/
theorem C5_validation_and_completion_witness :
    ("XYZ" : String) ∉ STF_CASE_TYPES ∧
    run_judex "XYZ" 1 2 (fun _ => ({} : Page)) {} "t" =
      Except.error ("Invalid STF case type: " ++ "XYZ") ∧
    ("RE" : String) ∈ STF_CASE_TYPES ∧
    (∃ l, run_judex "RE" 1 2 (fun _ => ({} : Page)) {} "t" = Except.ok l ∧
      l.map Prod.fst = List.range' 1 2) := by
  refine ⟨by decide, ?_, by decide, ?_⟩
  · exact (C5_validation_and_completion.1 "XYZ" 1 2 (fun _ => {})
      (fun _ => {}) {} {} "t" "t" (by decide)).1
  · refine C5_validation_and_completion.2 "RE" 1 2 (fun _ => {}) {} "t"
      (by decide) ?_
    intro i _
    exact ⟨none, rfl⟩

/-- Claim C9: record assembly is deterministic in the page content --
two assemblies of the same page differ at most in the `extraido` timestamp
(erasing it makes the results equal), and on success the record's
`extraido` field is exactly the supplied timestamp. -/
theorem C9_assembly_deterministic (p : Page) (classe : String)
    (processo : Nat) (t1 t2 : String) :
    (extract_processo p classe processo t1).map erase_extraido =
      (extract_processo p classe processo t2).map erase_extraido ∧
    (∀ r, extract_processo p classe processo t1 = Except.ok r →
      r.extraido = t1) := by
  unfold extract_processo
  cases extract_data_protocolo p with
  | error e => exact ⟨rfl, fun r h => Except.noConfusion h⟩
  | ok v1 =>
  cases extract_orgao_origem p with
  | error e => exact ⟨rfl, fun r h => Except.noConfusion h⟩
  | ok v2 =>
  cases extract_volumes p with
  | error e => exact ⟨rfl, fun r h => Except.noConfusion h⟩
  | ok v3 =>
  cases extract_folhas p with
  | error e => exact ⟨rfl, fun r h => Except.noConfusion h⟩
  | ok v4 =>
  cases extract_apensos p with
  | error e => exact ⟨rfl, fun r h => Except.noConfusion h⟩
  | ok v5 =>
  cases extract_peticoes p with
  | error e => exact ⟨rfl, fun r h => Except.noConfusion h⟩
  | ok v6 =>
    refine ⟨rfl, fun r h => ?_⟩
    injection h with h'
    rw [← h']

/-- Witness for claim C9 on a concrete page whose assembly succeeds: the
two assemblies agree after erasing the timestamp, and the record carries
the supplied timestamp. -/
theorem C9_assembly_deterministic_witness :
    (extract_processo good_page "RE" 1 "t1").map erase_extraido =
      (extract_processo good_page "RE" 1 "t2").map erase_extraido ∧
    extract_processo good_page "RE" 1 "t1" = Except.ok c9_record ∧
    c9_record.extraido = "t1" :=
  ⟨(C9_assembly_deterministic good_page "RE" 1 "t1" "t2").1, rfl,
    (C9_assembly_deterministic good_page "RE" 1 "t1" "t2").2 c9_record rfl⟩

end JudexMini
